import Mathlib

/-!
Verification of the context-aware LLM request dispatcher demonstrated in
`examples/lightrag_user_query_header_demo.py`.

The dispatcher is the async function `llm_model_func` (lines 40-80 of the
source): it selects a model from the per-call `llm_query_model` argument or
the `LLM_MODEL` environment variable, sanitizes the keyword arguments
(removing `hashing_kv`), resolves the API credential from `OPENAI_API_KEY`
falling back to `LLM_BINDING_API_KEY` via Python `or`, builds the argument
set of the transport call `openai_complete_if_cache`, invokes the transport,
and returns its result.  The credential guard lives in `main` (lines 87-91),
which resolves the key the same way and returns with an error message before
building the pipeline when no key is resolvable.

The embedding below is shallow: the process environment is a map from
variable name to optional string (`none` = unset, `some ""` = set to the
empty string, exactly the distinction `os.getenv` makes), Python keyword
dictionaries are maps from key to optional value, Python truthiness of an
optional string is made explicit, and the external transport collaborator is
an arbitrary function from the built request to a textual result.
-/

/-- The process environment as read by `os.getenv`: `none` when the variable
is unset, `some v` (possibly `some ""`) when it is set. -/
abbrev Env := String → Option String

/-- Python truthiness of an optional string: `None` and `""` are falsy,
every other string is truthy. -/
def truthy : Option String → Bool
  | none => false
  | some s => s != ""

/-- `os.getenv(k, d)`: the variable's value when set (even if empty),
otherwise the default `d`. -/
def getenvD (env : Env) (k d : String) : String :=
  (env k).getD d

/-- Model selection in `llm_model_func` (source lines 53-58):
`if llm_query_model: model = llm_query_model
else: model = os.getenv("LLM_MODEL", "gpt-4o-mini")`.
The branch condition is Python truthiness, so a `llm_query_model` that is
present but empty takes the default branch. -/
def selectModel (env : Env) (llm_query_model : Option String) : String :=
  if truthy llm_query_model then llm_query_model.getD ""
  else getenvD env "LLM_MODEL" "gpt-4o-mini"

/-- A Python keyword-argument dictionary: key to optional value.  Values are
modelled as strings; the sanitizer never inspects them. -/
abbrev Kwargs := String → Option String

/-- The parameter sanitizer of `llm_model_func` (source lines 63-64):
`kwargs_copy = kwargs.copy(); kwargs_copy.pop("hashing_kv", None)`.
It removes the single fixed internal key `"hashing_kv"` and nothing else. -/
def ParameterSanitizer.clean (kwargs : Kwargs) : Kwargs :=
  fun k => if k = "hashing_kv" then none else kwargs k

/-- Credential resolution (source line 73 and line 87):
`os.getenv("OPENAI_API_KEY") or os.getenv("LLM_BINDING_API_KEY")`.
Python `or` yields the right operand whenever the left is falsy
(`None` or `""`), so an empty primary key falls through to the fallback. -/
def resolveApiKey (env : Env) : Option String :=
  if truthy (env "OPENAI_API_KEY") then env "OPENAI_API_KEY"
  else env "LLM_BINDING_API_KEY"

/-- The argument set `llm_model_func` passes to the transport collaborator
`openai_complete_if_cache` (source lines 66-76): model, prompt, system
prompt, history, the forwarded internal flags `llm_query_model` and
`keyword_extraction`, credential, endpoint, and the sanitized kwargs. -/
structure TransportRequest where
  model : String
  prompt : String
  system_prompt : Option String
  history_messages : List (String × String)
  llm_query_model : Option String
  keyword_extraction : Bool
  api_key : Option String
  base_url : String
  kwargs : Kwargs

/-- Construction of the outbound transport request in `llm_model_func`
(source lines 52-76), field for field from the keyword arguments of the
`openai_complete_if_cache` call. -/
def buildRequest (env : Env) (prompt : String) (system_prompt : Option String)
    (history_messages : List (String × String)) (keyword_extraction : Bool)
    (llm_query_model : Option String) (kwargs : Kwargs) : TransportRequest :=
  { model := selectModel env llm_query_model
    prompt := prompt
    system_prompt := system_prompt
    history_messages := history_messages
    llm_query_model := llm_query_model
    keyword_extraction := keyword_extraction
    api_key := resolveApiKey env
    base_url := getenvD env "LLM_BINDING_HOST" "https://api.openai.com/v1"
    kwargs := ParameterSanitizer.clean kwargs }

/-- The dispatcher `llm_model_func` (source lines 40-80): build the
transport request, invoke the external transport collaborator on it, and
return its textual result unchanged.  The transport collaborator is passed
as a function so that theorems can observe whether and with what it is
invoked. -/
def llm_model_func (env : Env) (transport : TransportRequest → String)
    (prompt : String) (system_prompt : Option String)
    (history_messages : List (String × String)) (keyword_extraction : Bool)
    (llm_query_model : Option String) (kwargs : Kwargs) : String :=
  transport (buildRequest env prompt system_prompt history_messages
    keyword_extraction llm_query_model kwargs)

/-- Outcome of the credential guard at the top of `main`. -/
inductive MainOutcome where
  | configError : MainOutcome
  | proceed : String → MainOutcome
deriving DecidableEq

/-- The credential check in `main` (source lines 87-91):
`api_key = os.getenv("OPENAI_API_KEY") or os.getenv("LLM_BINDING_API_KEY");
if not api_key: <print error>; return` — it fails, before building the
pipeline, exactly when the resolved key is falsy. -/
def mainCredentialCheck (env : Env) : MainOutcome :=
  match resolveApiKey env with
  | none => MainOutcome.configError
  | some k => if k = "" then MainOutcome.configError else MainOutcome.proceed k

/-- Modelled from the spec: the origin of a call in the header-based routing
variant.  No header code exists under `src/`; the spec describes a
`CallContext.origin` enum with values `UserQuery` and `Internal`. -/
inductive Origin where
  | UserQuery : Origin
  | Internal : Origin
deriving DecidableEq

/-- A header mapping: header name to optional value. -/
abbrev Headers := String → Option String

/-- Modelled from the spec: derived headers of the header-based policy
variant (absent from `src/`).  A single boolean-valued marker header
`"X-User-Query"` is set to `"true"` for `UserQuery` and `"false"` for
`Internal`; no other header is derived. -/
def markerHeaders (o : Origin) : Headers :=
  fun k =>
    if k = "X-User-Query" then
      some (match o with
        | Origin.UserQuery => "true"
        | Origin.Internal => "false")
    else none

/-- Modelled from the spec: header resolution of the header-based policy
variant (absent from `src/`) — derive the marker header from the origin,
then overlay `explicit_header_overrides`, which win per key. -/
def resolveHeaders (o : Origin) (explicit_header_overrides : Headers) : Headers :=
  fun k =>
    match explicit_header_overrides k with
    | some v => some v
    | none => markerHeaders o k

/-- A concrete kwargs dictionary used by witnesses: two user-supplied
generation parameters and the internal `hashing_kv` handle. -/
def kwDemo : Kwargs := fun k =>
  if k = "temperature" then some "0.7"
  else if k = "max_tokens" then some "512"
  else if k = "hashing_kv" then some "internal-kv-handle"
  else none

/-- The empty environment: no variable set. -/
def envEmpty : Env := fun _ => none

/-- An environment with only the default model configured. -/
def envQwen : Env := fun k =>
  if k = "LLM_MODEL" then some "qwen-local" else none

/-- An environment whose primary key variable is set to the empty string
while the fallback key variable holds a real key. -/
def envEmptyPrimary : Env := fun k =>
  if k = "OPENAI_API_KEY" then some ""
  else if k = "LLM_BINDING_API_KEY" then some "fallback-key" else none

/-- An environment with both key variables set to non-empty keys. -/
def envPrimary : Env := fun k =>
  if k = "OPENAI_API_KEY" then some "sk-primary"
  else if k = "LLM_BINDING_API_KEY" then some "fallback-key" else none

/-- A concrete header-override mapping used by witnesses. -/
def ovDemo : Headers := fun k =>
  if k = "X-Trace-Id" then some "abc" else none

/-- Claim C1: model routing — when the call's `llm_query_model` is set to a
configured (non-empty) query model, `llm_model_func` selects that model;
when no query model is set (the code's encoding of an internal-origin call),
it selects the default model, i.e. the `LLM_MODEL` configuration value
falling back to `"gpt-4o-mini"`. -/
theorem model_routing_query_vs_default (env : Env) (q : Option String) :
    (∀ m, q = some m → m ≠ "" → selectModel env q = m) ∧
    (q = none → selectModel env q = (env "LLM_MODEL").getD "gpt-4o-mini") := by
  constructor
  · rintro m rfl hm
    simp [selectModel, truthy, hm]
  · rintro rfl
    simp [selectModel, truthy, getenvD]

/-- Witness for C1 at a concrete environment: with `LLM_MODEL=qwen-local`,
a call carrying query model `"gpt-4o"` routes to it, and a call carrying
none routes to `"qwen-local"`. -/
theorem model_routing_query_vs_default_witness :
    selectModel envQwen (some "gpt-4o") = "gpt-4o" ∧
    selectModel envQwen none = (envQwen "LLM_MODEL").getD "gpt-4o-mini" :=
  ⟨(model_routing_query_vs_default envQwen (some "gpt-4o")).1 "gpt-4o" rfl
      (by decide),
   (model_routing_query_vs_default envQwen none).2 rfl⟩

/-- Claim C2 as stated is false: with `llm_query_model` present but equal to
the empty string (present yet falsy), the selected model is the configured
default `"qwen-local"`, not the override value `""` — presence alone does
not make the override win. -/
theorem override_presence_not_unconditional :
    selectModel envQwen (some "") = "qwen-local" ∧
    ("qwen-local" : String) ≠ "" := by
  constructor
  · rfl
  · decide

/-- Claim C2 (amended): when the `llm_query_model` argument is present with
a truthy (non-empty) value, that value is selected unconditionally,
regardless of which default or query model the environment configures. -/
theorem truthy_override_wins (env : Env) (m : String) (h : m ≠ "") :
    selectModel env (some m) = m := by
  simp [selectModel, truthy, h]

/-- Witness for the amended C2 at a concrete input. -/
theorem truthy_override_wins_witness :
    selectModel envQwen (some "custom-model") = "custom-model" :=
  truthy_override_wins envQwen "custom-model" (by decide)

/-- Claim C3: sanitizer membership — `ParameterSanitizer.clean` removes
exactly the fixed internal key `"hashing_kv"` and leaves every other
key-value pair present and unchanged. -/
theorem clean_removes_exactly_hashing_kv (kwargs : Kwargs) :
    ParameterSanitizer.clean kwargs "hashing_kv" = none ∧
    ∀ k, k ≠ "hashing_kv" → ParameterSanitizer.clean kwargs k = kwargs k := by
  constructor
  · simp [ParameterSanitizer.clean]
  · intro k hk
    simp [ParameterSanitizer.clean, hk]

/-- Witness for C3 at a concrete dictionary: `hashing_kv` is removed while
the user-supplied `temperature` and `max_tokens` survive unchanged. -/
theorem clean_removes_exactly_hashing_kv_witness :
    ParameterSanitizer.clean kwDemo "hashing_kv" = none ∧
    ParameterSanitizer.clean kwDemo "temperature" = kwDemo "temperature" ∧
    ParameterSanitizer.clean kwDemo "max_tokens" = kwDemo "max_tokens" :=
  ⟨(clean_removes_exactly_hashing_kv kwDemo).1,
   (clean_removes_exactly_hashing_kv kwDemo).2 "temperature" (by decide),
   (clean_removes_exactly_hashing_kv kwDemo).2 "max_tokens" (by decide)⟩

/-- Claim C4 as stated is false on the code: with no credential resolvable
(empty environment), `llm_model_func` does not fail before the transport —
it invokes the transport collaborator (here a sentinel stub whose output it
returns) with credential `none`. -/
theorem missing_credential_transport_still_invoked :
    resolveApiKey envEmpty = none ∧
    (buildRequest envEmpty "p" none [] false none kwDemo).api_key = none ∧
    llm_model_func envEmpty (fun _ => "TRANSPORT-INVOKED") "p" none [] false
      none kwDemo = "TRANSPORT-INVOKED" :=
  ⟨rfl, rfl, rfl⟩

/-- Claim C4 (amended): when neither the primary nor the fallback key
variable is set, the dispatcher `llm_model_func` itself does not fail — it
invokes the transport exactly once with credential `none`; the
missing-credential guard lives in `main`, which resolves the key the same
way and fails (prints the error and returns) before building the pipeline,
so no transport call happens on that path. -/
theorem missing_credential_guard_in_main (env : Env)
    (hp : env "OPENAI_API_KEY" = none) (hf : env "LLM_BINDING_API_KEY" = none)
    (transport : TransportRequest → String) (prompt : String)
    (system_prompt : Option String) (history_messages : List (String × String))
    (keyword_extraction : Bool) (llm_query_model : Option String)
    (kwargs : Kwargs) :
    mainCredentialCheck env = MainOutcome.configError ∧
    (buildRequest env prompt system_prompt history_messages keyword_extraction
      llm_query_model kwargs).api_key = none ∧
    llm_model_func env transport prompt system_prompt history_messages
      keyword_extraction llm_query_model kwargs
      = transport (buildRequest env prompt system_prompt history_messages
          keyword_extraction llm_query_model kwargs) := by
  have hres : resolveApiKey env = none := by
    simp [resolveApiKey, hp, hf, truthy]
  refine ⟨?_, ?_, rfl⟩
  · simp [mainCredentialCheck, hres]
  · simp [buildRequest, hres]

/-- Witness for the amended C4 at the empty environment and concrete call
arguments. -/
theorem missing_credential_guard_in_main_witness :
    mainCredentialCheck envEmpty = MainOutcome.configError ∧
    (buildRequest envEmpty "p" (some "s") [("user", "hi")] true (some "")
      kwDemo).api_key = none ∧
    llm_model_func envEmpty (fun r => r.model) "p" (some "s") [("user", "hi")]
      true (some "") kwDemo
      = (buildRequest envEmpty "p" (some "s") [("user", "hi")] true (some "")
          kwDemo).model :=
  missing_credential_guard_in_main envEmpty rfl rfl (fun r => r.model) "p"
    (some "s") [("user", "hi")] true (some "") kwDemo

/-- Claim C5: header resolution — the marker header `"X-User-Query"` derives
to `"true"` for `UserQuery` and `"false"` for `Internal`; every key present
in `explicit_header_overrides` resolves to its override value, and every
other key resolves to its derived value, untouched.  (The header-based
policy variant is modelled from the spec; it has no code under `src/`.) -/
theorem header_resolution_marker_and_overrides (o : Origin)
    (explicit_header_overrides : Headers) :
    markerHeaders Origin.UserQuery "X-User-Query" = some "true" ∧
    markerHeaders Origin.Internal "X-User-Query" = some "false" ∧
    (∀ k v, explicit_header_overrides k = some v →
      resolveHeaders o explicit_header_overrides k = some v) ∧
    (∀ k, explicit_header_overrides k = none →
      resolveHeaders o explicit_header_overrides k = markerHeaders o k) := by
  refine ⟨rfl, rfl, ?_, ?_⟩
  · intro k v hv
    simp [resolveHeaders, hv]
  · intro k hk
    simp [resolveHeaders, hk]

/-- Witness for C5 at a concrete override mapping: the override for
`X-Trace-Id` wins, and the unoverridden marker key keeps its derived
value. -/
theorem header_resolution_marker_and_overrides_witness :
    markerHeaders Origin.UserQuery "X-User-Query" = some "true" ∧
    resolveHeaders Origin.UserQuery ovDemo "X-Trace-Id" = some "abc" ∧
    resolveHeaders Origin.Internal ovDemo "X-User-Query"
      = markerHeaders Origin.Internal "X-User-Query" :=
  ⟨(header_resolution_marker_and_overrides Origin.UserQuery ovDemo).1,
   (header_resolution_marker_and_overrides Origin.UserQuery ovDemo).2.2.1
      "X-Trace-Id" "abc" rfl,
   (header_resolution_marker_and_overrides Origin.Internal ovDemo).2.2.2
      "X-User-Query" (by decide)⟩

/-- Claim C6: sanitizer idempotence — cleaning twice equals cleaning once,
for every kwargs dictionary. -/
theorem clean_idempotent (kwargs : Kwargs) :
    ParameterSanitizer.clean (ParameterSanitizer.clean kwargs)
      = ParameterSanitizer.clean kwargs := by
  funext k
  by_cases hk : k = "hashing_kv" <;> simp [ParameterSanitizer.clean, hk]

/-- Claim C7 as stated is false: with the primary key variable set to the
empty string and the fallback set to `"fallback-key"`, the resolved
credential is the fallback value, not the primary's value — the fallback is
consulted even though the primary is present. -/
theorem empty_primary_key_falls_back :
    envEmptyPrimary "OPENAI_API_KEY" = some "" ∧
    resolveApiKey envEmptyPrimary = some "fallback-key" ∧
    (some "fallback-key" : Option String) ≠ some "" := by
  refine ⟨rfl, rfl, by decide⟩

/-- Claim C7 (amended): the credential is the primary key variable's value
when that variable is set to a non-empty string; when the primary is unset
or set to the empty string, the credential is whatever the fallback key
variable holds. -/
theorem credential_resolution_truthiness (env : Env) :
    (∀ v, env "OPENAI_API_KEY" = some v → v ≠ "" →
      resolveApiKey env = some v) ∧
    (env "OPENAI_API_KEY" = none ∨ env "OPENAI_API_KEY" = some "" →
      resolveApiKey env = env "LLM_BINDING_API_KEY") := by
  constructor
  · intro v hv hne
    simp [resolveApiKey, hv, truthy, hne]
  · rintro (h | h) <;> simp [resolveApiKey, h, truthy]

/-- Witness for the amended C7: a non-empty primary wins; an empty primary
yields the fallback variable's value. -/
theorem credential_resolution_truthiness_witness :
    resolveApiKey envPrimary = some "sk-primary" ∧
    resolveApiKey envEmptyPrimary = envEmptyPrimary "LLM_BINDING_API_KEY" :=
  ⟨(credential_resolution_truthiness envPrimary).1 "sk-primary" rfl (by decide),
   (credential_resolution_truthiness envEmptyPrimary).2 (Or.inr rfl)⟩

/-- Claim C8: content-blindness — the prompt, system prompt and history
reach the transport request exactly as received, and `llm_model_func`
returns the transport collaborator's result on that request unchanged. -/
theorem content_blindness (env : Env) (transport : TransportRequest → String)
    (prompt : String) (system_prompt : Option String)
    (history_messages : List (String × String)) (keyword_extraction : Bool)
    (llm_query_model : Option String) (kwargs : Kwargs) :
    (buildRequest env prompt system_prompt history_messages keyword_extraction
      llm_query_model kwargs).prompt = prompt ∧
    (buildRequest env prompt system_prompt history_messages keyword_extraction
      llm_query_model kwargs).system_prompt = system_prompt ∧
    (buildRequest env prompt system_prompt history_messages keyword_extraction
      llm_query_model kwargs).history_messages = history_messages ∧
    llm_model_func env transport prompt system_prompt history_messages
      keyword_extraction llm_query_model kwargs
      = transport (buildRequest env prompt system_prompt history_messages
          keyword_extraction llm_query_model kwargs) :=
  ⟨rfl, rfl, rfl, rfl⟩

/-- Claim C9: falsy-override edge case — a present-but-empty
`llm_query_model` routes exactly like an absent one: both select the
default model. -/
theorem falsy_override_selects_default (env : Env) :
    selectModel env (some "") = selectModel env none ∧
    selectModel env (some "") = getenvD env "LLM_MODEL" "gpt-4o-mini" :=
  ⟨rfl, rfl⟩

/-- Claim C10: internal-flag forwarding — the outbound transport request
carries `llm_query_model` and `keyword_extraction` as explicit fields, in
addition to the sanitized kwargs, from which only `hashing_kv` was
removed. -/
theorem internal_flags_forwarded (env : Env) (prompt : String)
    (system_prompt : Option String) (history_messages : List (String × String))
    (keyword_extraction : Bool) (llm_query_model : Option String)
    (kwargs : Kwargs) :
    (buildRequest env prompt system_prompt history_messages keyword_extraction
      llm_query_model kwargs).llm_query_model = llm_query_model ∧
    (buildRequest env prompt system_prompt history_messages keyword_extraction
      llm_query_model kwargs).keyword_extraction = keyword_extraction ∧
    (buildRequest env prompt system_prompt history_messages keyword_extraction
      llm_query_model kwargs).kwargs "hashing_kv" = none ∧
    (∀ k, k ≠ "hashing_kv" →
      (buildRequest env prompt system_prompt history_messages
        keyword_extraction llm_query_model kwargs).kwargs k = kwargs k) := by
  refine ⟨rfl, rfl, ?_, ?_⟩
  · simp [buildRequest, ParameterSanitizer.clean]
  · intro k hk
    simp [buildRequest, ParameterSanitizer.clean, hk]

/-- Witness for C10 at concrete call arguments: both internal flags appear
in the outbound request and the user-supplied `temperature` survives in its
kwargs. -/
theorem internal_flags_forwarded_witness :
    (buildRequest envQwen "p" none [] true (some "gpt-4o")
      kwDemo).llm_query_model = some "gpt-4o" ∧
    (buildRequest envQwen "p" none [] true (some "gpt-4o")
      kwDemo).keyword_extraction = true ∧
    (buildRequest envQwen "p" none [] true (some "gpt-4o")
      kwDemo).kwargs "temperature" = kwDemo "temperature" :=
  ⟨(internal_flags_forwarded envQwen "p" none [] true (some "gpt-4o")
      kwDemo).1,
   (internal_flags_forwarded envQwen "p" none [] true (some "gpt-4o")
      kwDemo).2.1,
   (internal_flags_forwarded envQwen "p" none [] true (some "gpt-4o")
      kwDemo).2.2.2 "temperature" (by decide)⟩
